import Mathlib

/-!
Verification of the OpenStack networking/clustering resource handlers
(`resource_openstack_networking_network_v2.go` and the clustering-profile
handler in the same source bundle).

The Go code is shallowly embedded: each remote interaction is a parameter
holding the remote's response, each handler or refresh closure is a pure
Lean function of those responses, and the API calls a handler issues are
recorded in an explicit trace list.
-/

/-- Error model for the gophercloud SDK errors the source inspects.
`errDefault404` is the concrete type `gophercloud.ErrDefault404` (a 404-class
not-found); `errUnexpectedResponseCode a` is the concrete type
`gophercloud.ErrUnexpectedResponseCode` with field `Actual = a`.  The two are
distinct concrete types in Go, so a type assertion on one never matches the
other; the inductive keeps them distinct constructors.  `other` stands for any
further opaque error (transport, auth, ...). -/
inductive ApiError where
  | errDefault404 : ApiError
  | errUnexpectedResponseCode (actual : Nat) : ApiError
  | other (msg : String) : ApiError
deriving DecidableEq, Repr

/-- The slice of `networks.Network` the refresh closures read: its `Status`. -/
structure Network where
  status : String
deriving DecidableEq, Repr

/-- Result of one invocation of a `resource.StateRefreshFunc` closure:
the Go triple `(interface{}, string, error)`. -/
structure RefreshResult where
  obj : Option Network
  state : String
  err : Option ApiError
deriving DecidableEq, Repr

/-- The refresh closure built by `waitForNetworkActive` (source lines 373-387),
as a function of the response of the `networks.Get` call it performs:
on a Get error it returns `(nil, "", err)`; on success it normalizes a
`"DOWN"` or `"ACTIVE"` status to `"ACTIVE"` and passes any other status
through unchanged, with a nil error. -/
def waitForNetworkActive (getRes : Except ApiError Network) : RefreshResult :=
  match getRes with
  | Except.error e => ⟨none, "", some e⟩
  | Except.ok n =>
      if n.status = "DOWN" ∨ n.status = "ACTIVE" then ⟨some n, "ACTIVE", none⟩
      else ⟨some n, n.status, none⟩

/-- The refresh closure built by `waitForNetworkDelete` (source lines 389-419),
as a function of the response of its `networks.Get` call and, when Get
succeeds, the response of the `networks.Delete` call it then issues
(`delRes = none` means Delete returned no error):
* Get fails with `ErrDefault404`: return `(n, "DELETED", nil)`;
* Get fails otherwise: return `(n, "ACTIVE", err)`;
* Delete fails with `ErrDefault404`: return `(n, "DELETED", nil)`;
* Delete fails with `ErrUnexpectedResponseCode` whose `Actual` is 409:
  return `(n, "ACTIVE", nil)`;
* Delete fails otherwise: return `(n, "ACTIVE", err)`;
* Delete succeeds: return `(n, "ACTIVE", nil)`. -/
def waitForNetworkDelete (getRes : Except ApiError Network)
    (delRes : Option ApiError) : RefreshResult :=
  match getRes with
  | Except.error e =>
      if e = ApiError.errDefault404 then ⟨none, "DELETED", none⟩
      else ⟨none, "ACTIVE", some e⟩
  | Except.ok n =>
      match delRes with
      | some e =>
          if e = ApiError.errDefault404 then ⟨some n, "DELETED", none⟩
          else if e = ApiError.errUnexpectedResponseCode 409 then
            ⟨some n, "ACTIVE", none⟩
          else ⟨some n, "ACTIVE", some e⟩
      | none => ⟨some n, "ACTIVE", none⟩

/-- The remote API calls a handler or closure can issue. -/
inductive ApiCall where
  | get (id : String)
  | create
  | delete (id : String)
  | update (id : String)
  | replaceTags (id : String)
deriving DecidableEq, Repr

/-- Whether a call mutates remote state: everything except `get` does. -/
def isMutating : ApiCall → Bool
  | ApiCall.get _ => false
  | _ => true

/-- The API calls one invocation of the `waitForNetworkActive` closure issues:
exactly the one `networks.Get` (source line 375). -/
def waitForNetworkActiveCalls (networkId : String) : List ApiCall :=
  [ApiCall.get networkId]

/-- The API calls one invocation of the `waitForNetworkDelete` closure issues:
the `networks.Get` (source line 393), and, whenever Get succeeds, also the
`networks.Delete` (source line 402). -/
def waitForNetworkDeleteCalls (getRes : Except ApiError Network)
    (networkId : String) : List ApiCall :=
  match getRes with
  | Except.error _ => [ApiCall.get networkId]
  | Except.ok _ => [ApiCall.get networkId, ApiCall.delete networkId]

/-- Outcome of one poll (`WaitForState`) invocation. -/
inductive PollOutcome where
  | success (finalState : String)
  | remoteError (e : ApiError)
  | timedOut
deriving DecidableEq, Repr

/-- Modelled from the spec: the generic poll loop
(`resource.StateChangeConf.WaitForState` of the terraform helper library,
which is not under src/).  Per spec section 4.1: call `refresh`; if it
returns an error the poll fails immediately with that error; if it returns a
state in the target set the poll succeeds immediately with that state;
otherwise sleep and repeat until the timeout elapses, in which case the poll
times out.  `script` is the sequence of refresh results the remote would
produce and `fuel` the number of refresh attempts the timeout allows; an
exhausted budget or script is the timeout outcome. -/
def poll (target : List String) (fuel : Nat) (script : List RefreshResult) :
    PollOutcome :=
  match fuel, script with
  | 0, _ => PollOutcome.timedOut
  | _ + 1, [] => PollOutcome.timedOut
  | f + 1, r :: rest =>
      match r.err with
      | some e => PollOutcome.remoteError e
      | none =>
          if r.state ∈ target then PollOutcome.success r.state
          else poll target f rest

/-- `Pending` of the `StateChangeConf` built by Create (source line 208). -/
def createPending : List String := ["BUILD"]

/-- `Target` of the `StateChangeConf` built by Create (source line 209). -/
def createTarget : List String := ["ACTIVE"]

/-- `Pending` of the `StateChangeConf` built by Delete (source line 333). -/
def deletePending : List String := ["ACTIVE"]

/-- `Target` of the `StateChangeConf` built by Delete (source line 334). -/
def deleteTarget : List String := ["DELETED"]

/-- Go `strconv.ParseBool`: accepts exactly
1, t, T, TRUE, true, True, 0, f, F, FALSE, false, False. -/
def parseBool (s : String) : Option Bool :=
  if s = "1" ∨ s = "t" ∨ s = "T" ∨ s = "TRUE" ∨ s = "true" ∨ s = "True" then
    some true
  else if s = "0" ∨ s = "f" ∨ s = "F" ∨ s = "FALSE" ∨ s = "false" ∨ s = "False" then
    some false
  else none

/-- Result of a handler: Go `error` return, nil (`ok`) or a message. -/
inductive ExecResult where
  | ok
  | err (msg : String)
deriving DecidableEq, Repr

/-- The schema fields `resourceNetworkingNetworkV2Create` reads.  Fields
that only shape the option payload (name, description, tenant id,
availability-zone hints, value specs) are omitted from the model; the fields
kept are the ones that drive control flow: the two string-typed booleans that
are validated, the external flag and segments (which select the create-call
variant), and the tags. -/
structure CreateInput where
  adminStateUp : String
  shared : String
  isExternal : Bool
  segments : List (String × String × Int)
  tags : List String
deriving Repr

/-- The remote responses `resourceNetworkingNetworkV2Create` can consume:
the `networks.Create` response (the created network id on success), the
`attributestags.ReplaceAll` response, the outcome of the
`stateConf.WaitForState()` poll, and the result of the final
`resourceNetworkingNetworkV2Read` call (kept abstract). -/
structure CreateRemote where
  createRes : Except ApiError String
  tagsRes : Option ApiError
  pollRes : PollOutcome
  readRes : ExecResult
deriving Repr

/-- What a Create run produces: the returned error value, the trace of
remote API calls it issued, and the resource id it set (if it reached
`d.SetId`). -/
structure CreateOutcome where
  result : ExecResult
  calls : List ApiCall
  idSet : Option String
deriving DecidableEq, Repr

/-- `resourceNetworkingNetworkV2Create` (source lines 120-221):
validate `admin_state_up` then `shared` with `strconv.ParseBool` when
non-empty, returning an error before any remote call on failure; issue
`networks.Create` (whichever of the four option-wrapping variants the
`segments`/`external` fields select, all one Create call); on success, if
tags are present issue `attributestags.ReplaceAll` and fail on its error;
then run `stateConf.WaitForState()`, whose result is assigned to `_, err`
and never examined; set the id; return the result of Read. -/
def resourceNetworkingNetworkV2Create (inp : CreateInput)
    (remote : CreateRemote) : CreateOutcome :=
  if inp.adminStateUp ≠ "" ∧ parseBool inp.adminStateUp = none then
    ⟨ExecResult.err "admin_state_up, if provided, must be either true or false",
      [], none⟩
  else if inp.shared ≠ "" ∧ parseBool inp.shared = none then
    ⟨ExecResult.err "shared, if provided, must be either true or false",
      [], none⟩
  else
    match remote.createRes with
    | Except.error _ =>
        ⟨ExecResult.err "Error creating OpenStack Neutron network",
          [ApiCall.create], none⟩
    | Except.ok nid =>
        if inp.tags.length > 0 then
          match remote.tagsRes with
          | some _ =>
              ⟨ExecResult.err "Error creating Tags on Network",
                [ApiCall.create, ApiCall.replaceTags nid], none⟩
          | none =>
              let _discardedPollErr := remote.pollRes
              ⟨remote.readRes, [ApiCall.create, ApiCall.replaceTags nid],
                some nid⟩
        else
          let _discardedPollErr := remote.pollRes
          ⟨remote.readRes, [ApiCall.create], some nid⟩

/-- The schema fields and change flags `resourceNetworkingNetworkV2Update`
reads. -/
structure UpdateInput where
  id : String
  hasChangeTags : Bool
  hasChangeAdminStateUp : Bool
  adminStateUp : String
  hasChangeShared : Bool
  shared : String
  hasChangeExternal : Bool
  isExternal : Bool
deriving Repr

/-- The remote responses `resourceNetworkingNetworkV2Update` can consume. -/
structure UpdateRemote where
  tagsRes : Option ApiError
  updateRes : Option ApiError
  readRes : ExecResult
deriving Repr

/-- What an Update run produces. -/
structure UpdateOutcome where
  result : ExecResult
  calls : List ApiCall
deriving DecidableEq, Repr

/-- `resourceNetworkingNetworkV2Update` (source lines 257-323):
if tags changed, issue `attributestags.ReplaceAll` first and fail on its
error; then validate `admin_state_up` and `shared` (only when changed and
non-empty) with `strconv.ParseBool`, failing before the update call; then
issue `networks.Update` (external variant or not — one Update call either
way) and fail on its error; otherwise return the result of Read. -/
def resourceNetworkingNetworkV2Update (inp : UpdateInput)
    (remote : UpdateRemote) : UpdateOutcome :=
  let tagCalls := if inp.hasChangeTags then [ApiCall.replaceTags inp.id] else []
  if inp.hasChangeTags ∧ remote.tagsRes.isSome then
    ⟨ExecResult.err "Error updating Tags on Network", tagCalls⟩
  else if inp.hasChangeAdminStateUp ∧ inp.adminStateUp ≠ "" ∧
      parseBool inp.adminStateUp = none then
    ⟨ExecResult.err "admin_state_up, if provided, must be either true or false",
      tagCalls⟩
  else if inp.hasChangeShared ∧ inp.shared ≠ "" ∧
      parseBool inp.shared = none then
    ⟨ExecResult.err "shared, if provided, must be either true or false",
      tagCalls⟩
  else
    match remote.updateRes with
    | some _ =>
        ⟨ExecResult.err "Error updating OpenStack Neutron Network",
          tagCalls ++ [ApiCall.update inp.id]⟩
    | none => ⟨remote.readRes, tagCalls ++ [ApiCall.update inp.id]⟩

/-- The slice of `profiles.Profile` the clustering handlers read. -/
structure Profile where
  name : String
deriving DecidableEq, Repr

/-- What a clustering-profile Read or Update run produces: the returned
error value, the trace of remote API calls, and whether `CheckDeleted`
cleared the resource id. -/
structure ProfileReadOutcome where
  result : ExecResult
  calls : List ApiCall
  idCleared : Bool
deriving DecidableEq, Repr

/-- `resourceClusteringProfileV1Read` (second source file, lines 495-529):
issue `profiles.Get`; on error run `CheckDeleted`, which on an
`ErrDefault404` clears the id and reports success, and otherwise fails with
the wrapped error; on success set the schema fields (no remote effect) and
return nil. -/
def resourceClusteringProfileV1Read (id : String)
    (getRes : Except ApiError Profile) : ProfileReadOutcome :=
  match getRes with
  | Except.error e =>
      if e = ApiError.errDefault404 then
        ⟨ExecResult.ok, [ApiCall.get id], true⟩
      else
        ⟨ExecResult.err "Error retrieving openstack clustering profile v1",
          [ApiCall.get id], false⟩
  | Except.ok _ => ⟨ExecResult.ok, [ApiCall.get id], false⟩

/-- `resourceClusteringProfileV1Update` (second source file, lines 531-557):
the whole update body — client construction, option assembly and the
`profiles.Update` call — is commented out; the function only calls
`resourceClusteringProfileV1Read` and returns its result. -/
def resourceClusteringProfileV1Update (id : String)
    (getRes : Except ApiError Profile) : ProfileReadOutcome :=
  resourceClusteringProfileV1Read id getRes

/-! ## Helper lemmas about the poll loop -/

/-- A poll whose script starts with pending observations (no error, state not
in the target set) and then reaches an error-free observation of a target
state succeeds with that state, provided the attempt budget covers it. -/
theorem poll_success_after_pending (target : List String) (r : RefreshResult)
    (hr : r.err = none) (ht : r.state ∈ target) :
    ∀ (prior : List RefreshResult) (fuel : Nat),
      (∀ p ∈ prior, p.err = none ∧ p.state ∉ target) →
      prior.length < fuel →
      poll target fuel (prior ++ [r]) = PollOutcome.success r.state := by
  intro prior
  induction prior with
  | nil =>
      intro fuel _ hf
      cases fuel with
      | zero => exact absurd hf (Nat.not_lt_zero _)
      | succ f => simp [poll, hr, ht]
  | cons p rest ih =>
      intro fuel hp hf
      cases fuel with
      | zero => exact absurd hf (Nat.not_lt_zero _)
      | succ f =>
          have hp1 := hp p (List.mem_cons_self _ _)
          have hstep : poll target (f + 1) ((p :: rest) ++ [r]) =
              poll target f (rest ++ [r]) := by
            simp [poll, hp1.1, hp1.2]
          rw [hstep]
          exact ih f (fun q hq => hp q (List.mem_cons_of_mem _ hq))
            (Nat.lt_of_succ_lt_succ hf)

/-- A poll whose script consists only of pending observations (no error,
state not in the target set) times out, whatever the attempt budget. -/
theorem poll_pending_times_out (target : List String) :
    ∀ (script : List RefreshResult) (fuel : Nat),
      (∀ p ∈ script, p.err = none ∧ p.state ∉ target) →
      poll target fuel script = PollOutcome.timedOut := by
  intro script
  induction script with
  | nil => intro fuel _; cases fuel <;> simp [poll]
  | cons p rest ih =>
      intro fuel hp
      cases fuel with
      | zero => simp [poll]
      | succ f =>
          have hp1 := hp p (List.mem_cons_self _ _)
          have hstep : poll target (f + 1) (p :: rest) = poll target f rest := by
            simp [poll, hp1.1, hp1.2]
          rw [hstep]
          exact ih f (fun q hq => hp q (List.mem_cons_of_mem _ hq))

/-! ## Claim theorems -/

/-- C1: whenever the delete-mode refresh closure sees a 404-class not-found
error — from the initial Get or from the subsequent Delete — it reports the
terminal state DELETED with a nil error, and a poll whose earlier
observations were all pending therefore ends in success with final state
DELETED. -/
theorem waitForNetworkDelete_notFound_is_terminal_success
    (getRes : Except ApiError Network) (delRes : Option ApiError)
    (h404 : getRes = Except.error ApiError.errDefault404 ∨
      ((∃ n, getRes = Except.ok n) ∧ delRes = some ApiError.errDefault404)) :
    (waitForNetworkDelete getRes delRes).state = "DELETED" ∧
    (waitForNetworkDelete getRes delRes).err = none ∧
    ∀ (prior : List RefreshResult) (fuel : Nat),
      (∀ p ∈ prior, p.err = none ∧ p.state ∉ deleteTarget) →
      prior.length < fuel →
      poll deleteTarget fuel (prior ++ [waitForNetworkDelete getRes delRes]) =
        PollOutcome.success "DELETED" := by
  have hres : (waitForNetworkDelete getRes delRes).state = "DELETED" ∧
      (waitForNetworkDelete getRes delRes).err = none := by
    rcases h404 with h | ⟨⟨n, hn⟩, hd⟩
    · subst h; exact ⟨rfl, rfl⟩
    · subst hn; subst hd; exact ⟨rfl, rfl⟩
  refine ⟨hres.1, hres.2, ?_⟩
  intro prior fuel hp hf
  have h := poll_success_after_pending deleteTarget _ hres.2
    (by rw [hres.1]; simp [deleteTarget]) prior fuel hp hf
  rw [hres.1] at h
  exact h

/-- C1 witness: concrete instance — Get returns a 404, prior observation was
pending ACTIVE, the poll succeeds with DELETED. -/
theorem waitForNetworkDelete_notFound_is_terminal_success_witness :
    (waitForNetworkDelete (Except.error ApiError.errDefault404) none).state =
      "DELETED" ∧
    poll deleteTarget 2
      ([⟨none, "ACTIVE", none⟩] ++
        [waitForNetworkDelete (Except.error ApiError.errDefault404) none]) =
      PollOutcome.success "DELETED" := by
  have h := waitForNetworkDelete_notFound_is_terminal_success
    (Except.error ApiError.errDefault404) none (Or.inl rfl)
  refine ⟨h.1, h.2.2 [⟨none, "ACTIVE", none⟩] 2 ?_ ?_⟩
  · intro p hp
    simp only [List.mem_singleton] at hp
    subst hp
    exact ⟨rfl, by simp [deleteTarget]⟩
  · simp

/-- C2: when the Delete call inside the delete-mode refresh closure returns a
conflict (ErrUnexpectedResponseCode with Actual 409), the closure reports
pending state ACTIVE with a nil error, and a refresh sequence consisting only
of such conflict observations makes the poll time out, never yielding a
remote-error outcome. -/
theorem waitForNetworkDelete_conflict_is_pending (n : Network) :
    waitForNetworkDelete (Except.ok n)
      (some (ApiError.errUnexpectedResponseCode 409)) =
      ⟨some n, "ACTIVE", none⟩ ∧
    ∀ (script : List RefreshResult) (fuel : Nat),
      (∀ r ∈ script, ∃ m, r = waitForNetworkDelete (Except.ok m)
        (some (ApiError.errUnexpectedResponseCode 409))) →
      poll deleteTarget fuel script = PollOutcome.timedOut := by
  constructor
  · rfl
  · intro script fuel hs
    apply poll_pending_times_out
    intro p hp
    obtain ⟨m, hm⟩ := hs p hp
    subst hm
    exact ⟨rfl, by simp [waitForNetworkDelete, deleteTarget]⟩

/-- C2 witness: two consecutive conflict observations with budget 5 time
out. -/
theorem waitForNetworkDelete_conflict_is_pending_witness :
    waitForNetworkDelete (Except.ok ⟨"ACTIVE"⟩)
      (some (ApiError.errUnexpectedResponseCode 409)) =
      ⟨some ⟨"ACTIVE"⟩, "ACTIVE", none⟩ ∧
    poll deleteTarget 5
      [waitForNetworkDelete (Except.ok ⟨"ACTIVE"⟩)
        (some (ApiError.errUnexpectedResponseCode 409)),
       waitForNetworkDelete (Except.ok ⟨"ACTIVE"⟩)
        (some (ApiError.errUnexpectedResponseCode 409))] =
      PollOutcome.timedOut := by
  have h := waitForNetworkDelete_conflict_is_pending ⟨"ACTIVE"⟩
  refine ⟨h.1, h.2 _ 5 ?_⟩
  intro r hr
  simp at hr
  exact ⟨⟨"ACTIVE"⟩, hr⟩

/-- C3: an error that is neither the delete-mode 404-class not-found nor the
delete-mode 409 conflict is passed through unchanged: the create-mode
closure passes every error through (404-class and 409 included — it
special-cases nothing, source lines 376-378); the delete-mode closure
passes through any Get error other than its 404 and any Delete error other
than its 404 and its 409; and the poll fails immediately with exactly that
error on the invocation that produced it. -/
theorem refresh_other_errors_fatal (e : ApiError) :
    (waitForNetworkActive (Except.error e)).err = some e ∧
    (e ≠ ApiError.errDefault404 →
      ∀ delRes, (waitForNetworkDelete (Except.error e) delRes).err = some e) ∧
    (e ≠ ApiError.errDefault404 → e ≠ ApiError.errUnexpectedResponseCode 409 →
      ∀ n, (waitForNetworkDelete (Except.ok n) (some e)).err = some e) ∧
    (∀ (target : List String) (fuel : Nat) (r : RefreshResult)
        (rest : List RefreshResult), r.err = some e →
      poll target (fuel + 1) (r :: rest) = PollOutcome.remoteError e) := by
  refine ⟨rfl, ?_, ?_, ?_⟩
  · intro h404 delRes
    simp [waitForNetworkDelete, h404]
  · intro h404 h409 n
    simp [waitForNetworkDelete, h404, h409]
  · intro target fuel r rest hr
    simp [poll, hr]

/-- C3 witness: a 404-class error is returned unchanged by the create-mode
closure, a concrete opaque transport error is returned unchanged by both
closures, and such an error fails a poll on its first attempt. -/
theorem refresh_other_errors_fatal_witness :
    (waitForNetworkActive (Except.error ApiError.errDefault404)).err =
      some ApiError.errDefault404 ∧
    (waitForNetworkActive (Except.error (ApiError.other "auth failure"))).err =
      some (ApiError.other "auth failure") ∧
    (waitForNetworkDelete (Except.error (ApiError.other "auth failure")) none).err =
      some (ApiError.other "auth failure") ∧
    (waitForNetworkDelete (Except.ok ⟨"ACTIVE"⟩)
      (some (ApiError.other "auth failure"))).err =
      some (ApiError.other "auth failure") ∧
    poll createTarget 1
      [waitForNetworkActive (Except.error (ApiError.other "auth failure"))] =
      PollOutcome.remoteError (ApiError.other "auth failure") := by
  have h404 := refresh_other_errors_fatal ApiError.errDefault404
  have h := refresh_other_errors_fatal (ApiError.other "auth failure")
  exact ⟨h404.1, h.1, h.2.1 (by decide) none, h.2.2.1 (by decide) (by decide) ⟨"ACTIVE"⟩,
    h.2.2.2 createTarget 0 _ [] h.1⟩

/-- C4: on a successful Get, the create-mode refresh closure reports ACTIVE
for a remote status of DOWN or ACTIVE and reports any other status string
unchanged, always with a nil error. -/
theorem waitForNetworkActive_normalizes_status (n : Network) :
    (waitForNetworkActive (Except.ok n)).err = none ∧
    ((n.status = "DOWN" ∨ n.status = "ACTIVE") →
      (waitForNetworkActive (Except.ok n)).state = "ACTIVE") ∧
    (¬(n.status = "DOWN" ∨ n.status = "ACTIVE") →
      (waitForNetworkActive (Except.ok n)).state = n.status) := by
  by_cases h : n.status = "DOWN" ∨ n.status = "ACTIVE"
  · exact ⟨by simp [waitForNetworkActive, h], fun _ => by
      simp [waitForNetworkActive, h], fun hc => absurd h hc⟩
  · exact ⟨by simp [waitForNetworkActive, h], fun hc => absurd hc h, fun _ => by
      simp [waitForNetworkActive, h]⟩

/-- C4 witness: DOWN is normalized to ACTIVE, BUILD passes through. -/
theorem waitForNetworkActive_normalizes_status_witness :
    (waitForNetworkActive (Except.ok ⟨"DOWN"⟩)).state = "ACTIVE" ∧
    (waitForNetworkActive (Except.ok ⟨"BUILD"⟩)).state = "BUILD" := by
  exact ⟨(waitForNetworkActive_normalizes_status ⟨"DOWN"⟩).2.1 (Or.inl rfl),
    (waitForNetworkActive_normalizes_status ⟨"BUILD"⟩).2.2 (by decide)⟩

/-- C5: the delete-mode refresh closure reports DELETED exactly when a
404-class not-found was observed on that invocation (from Get, or from
Delete after a successful Get); every other invocation reports ACTIVE — in
particular a Delete that succeeds with no error yields (ACTIVE, nil). -/
theorem waitForNetworkDelete_state_iff_notFound
    (getRes : Except ApiError Network) (delRes : Option ApiError) :
    ((waitForNetworkDelete getRes delRes).state = "DELETED" ↔
      (getRes = Except.error ApiError.errDefault404 ∨
        ((∃ n, getRes = Except.ok n) ∧ delRes = some ApiError.errDefault404))) ∧
    ((waitForNetworkDelete getRes delRes).state = "DELETED" ∨
      (waitForNetworkDelete getRes delRes).state = "ACTIVE") ∧
    (∀ n, getRes = Except.ok n → delRes = none →
      waitForNetworkDelete getRes delRes = ⟨some n, "ACTIVE", none⟩) := by
  refine ⟨?_, ?_, ?_⟩
  · cases getRes with
    | error e =>
        by_cases he : e = ApiError.errDefault404 <;>
          simp [waitForNetworkDelete, he]
    | ok n =>
        cases delRes with
        | none => simp [waitForNetworkDelete]
        | some e =>
            by_cases he : e = ApiError.errDefault404
            · simp [waitForNetworkDelete, he]
            · by_cases h9 : e = ApiError.errUnexpectedResponseCode 409 <;>
                simp [waitForNetworkDelete, he, h9]
  · cases getRes with
    | error e =>
        by_cases he : e = ApiError.errDefault404 <;>
          simp [waitForNetworkDelete, he]
    | ok n =>
        cases delRes with
        | none => simp [waitForNetworkDelete]
        | some e =>
            by_cases he : e = ApiError.errDefault404
            · simp [waitForNetworkDelete, he]
            · by_cases h9 : e = ApiError.errUnexpectedResponseCode 409 <;>
                simp [waitForNetworkDelete, he, h9]
  · intro n hg hd
    subst hg; subst hd
    rfl

/-- C5 witness: a successful Get followed by an error-free Delete reports
(ACTIVE, nil). -/
theorem waitForNetworkDelete_state_iff_notFound_witness :
    waitForNetworkDelete (Except.ok ⟨"ACTIVE"⟩) none =
      ⟨some ⟨"ACTIVE"⟩, "ACTIVE", none⟩ := by
  exact (waitForNetworkDelete_state_iff_notFound
    (Except.ok ⟨"ACTIVE"⟩) none).2.2 ⟨"ACTIVE"⟩ rfl rfl

/-- C6 counterexample: the delete-mode refresh closure is not a pure query —
on an invocation whose Get succeeds, its call trace contains the
state-changing `networks.Delete` call. -/
theorem waitForNetworkDelete_issues_mutating_call :
    ¬(∀ c ∈ waitForNetworkDeleteCalls (Except.ok ⟨"ACTIVE"⟩) "net-1",
        isMutating c = false) ∧
    ApiCall.delete "net-1" ∈
      waitForNetworkDeleteCalls (Except.ok ⟨"ACTIVE"⟩) "net-1" := by
  decide

/-- C6 (amended): the create-mode refresh closure issues only the read-only
Get call; the delete-mode refresh closure issues a state-changing call
exactly on the invocations whose Get succeeds (the Delete it then
performs), so it is not a pure query. -/
theorem refresh_closure_mutation_characterization
    (networkId : String) (getRes : Except ApiError Network) :
    (∀ c ∈ waitForNetworkActiveCalls networkId, isMutating c = false) ∧
    ((∃ c ∈ waitForNetworkDeleteCalls getRes networkId, isMutating c = true) ↔
      ∃ n, getRes = Except.ok n) := by
  constructor
  · intro c hc
    simp only [waitForNetworkActiveCalls, List.mem_singleton] at hc
    subst hc; rfl
  · cases getRes with
    | error e => simp [waitForNetworkDeleteCalls, isMutating]
    | ok n => simp [waitForNetworkDeleteCalls, isMutating]

/-- C6 amended-claim witness: the Get is non-mutating and the delete-mode
closure with a successful Get performs a mutating call. -/
theorem refresh_closure_mutation_characterization_witness :
    isMutating (ApiCall.get "net-1") = false ∧
    (∃ c ∈ waitForNetworkDeleteCalls (Except.ok ⟨"ACTIVE"⟩) "net-1",
      isMutating c = true) := by
  have h := refresh_closure_mutation_characterization "net-1"
    (Except.ok ⟨"ACTIVE"⟩)
  exact ⟨h.1 (ApiCall.get "net-1") (by decide),
    h.2.mpr ⟨⟨"ACTIVE"⟩, rfl⟩⟩

/-- C7: both StateChangeConf configurations the handlers build are valid
PollRequests — Create uses Pending = [BUILD], Target = [ACTIVE], Delete uses
Pending = [ACTIVE], Target = [DELETED]; each target set is non-empty and
disjoint from its pending set. -/
theorem stateConf_states_valid :
    createPending = ["BUILD"] ∧ createTarget = ["ACTIVE"] ∧
    deletePending = ["ACTIVE"] ∧ deleteTarget = ["DELETED"] ∧
    createTarget ≠ [] ∧ deleteTarget ≠ [] ∧
    (∀ s ∈ createTarget, s ∉ createPending) ∧
    (∀ s ∈ deleteTarget, s ∉ deletePending) := by
  refine ⟨rfl, rfl, rfl, rfl, by decide, by decide, by decide, by decide⟩

/-- C7 witness: the concrete target states are not pending states. -/
theorem stateConf_states_valid_witness :
    "ACTIVE" ∉ createPending ∧ "DELETED" ∉ deletePending := by
  exact ⟨stateConf_states_valid.2.2.2.2.2.2.1 "ACTIVE" (by decide),
    stateConf_states_valid.2.2.2.2.2.2.2 "DELETED" (by decide)⟩

/-- C8: an admin_state_up or shared value that is non-empty and not parseable
as a boolean makes Create return a validation error with an empty call trace
(no remote create call, no id set); in Update the same validation runs before
the `networks.Update` call, so on such a value (when changed, and with the
tags step not failing first) Update returns a validation error and its trace
contains no update call. -/
theorem validation_precedes_remote_mutation :
    (∀ (inp : CreateInput) (remote : CreateRemote),
      ((inp.adminStateUp ≠ "" ∧ parseBool inp.adminStateUp = none) ∨
       (inp.shared ≠ "" ∧ parseBool inp.shared = none)) →
      (∃ msg, (resourceNetworkingNetworkV2Create inp remote).result =
        ExecResult.err msg) ∧
      (resourceNetworkingNetworkV2Create inp remote).calls = [] ∧
      (resourceNetworkingNetworkV2Create inp remote).idSet = none) ∧
    (∀ (inp : UpdateInput) (remote : UpdateRemote),
      ¬(inp.hasChangeTags ∧ remote.tagsRes.isSome) →
      ((inp.hasChangeAdminStateUp ∧ inp.adminStateUp ≠ "" ∧
          parseBool inp.adminStateUp = none) ∨
       (inp.hasChangeShared ∧ inp.shared ≠ "" ∧
          parseBool inp.shared = none)) →
      (∃ msg, (resourceNetworkingNetworkV2Update inp remote).result =
        ExecResult.err msg) ∧
      ApiCall.update inp.id ∉
        (resourceNetworkingNetworkV2Update inp remote).calls) := by
  constructor
  · intro inp remote h
    by_cases hA : inp.adminStateUp ≠ "" ∧ parseBool inp.adminStateUp = none
    · refine ⟨⟨"admin_state_up, if provided, must be either true or false",
        ?_⟩, ?_, ?_⟩ <;> simp [resourceNetworkingNetworkV2Create, hA]
    · have hS : inp.shared ≠ "" ∧ parseBool inp.shared = none :=
        h.resolve_left hA
      refine ⟨⟨"shared, if provided, must be either true or false",
        ?_⟩, ?_, ?_⟩ <;> simp [resourceNetworkingNetworkV2Create, hA, hS]
  · intro inp remote hT h
    by_cases hA : inp.hasChangeAdminStateUp ∧ inp.adminStateUp ≠ "" ∧
        parseBool inp.adminStateUp = none
    · refine ⟨⟨"admin_state_up, if provided, must be either true or false",
        ?_⟩, ?_⟩ <;>
        · cases hb : inp.hasChangeTags with
          | false => simp [resourceNetworkingNetworkV2Update, hb, hA]
          | true =>
              have hts : remote.tagsRes.isSome = false := by
                cases hres : remote.tagsRes.isSome
                · rfl
                · exact absurd ⟨hb, hres⟩ hT
              simp [resourceNetworkingNetworkV2Update, hb, hts, hA]
    · have hS : inp.hasChangeShared ∧ inp.shared ≠ "" ∧
          parseBool inp.shared = none := h.resolve_left hA
      refine ⟨⟨"shared, if provided, must be either true or false",
        ?_⟩, ?_⟩ <;>
        · cases hb : inp.hasChangeTags with
          | false => simp [resourceNetworkingNetworkV2Update, hb, hA, hS]
          | true =>
              have hts : remote.tagsRes.isSome = false := by
                cases hres : remote.tagsRes.isSome
                · rfl
                · exact absurd ⟨hb, hres⟩ hT
              simp [resourceNetworkingNetworkV2Update, hb, hts, hA, hS]

/-- C8 witness: an unparseable admin_state_up blocks the create call, and in
Update blocks the update call. -/
theorem validation_precedes_remote_mutation_witness :
    (resourceNetworkingNetworkV2Create
      ⟨"banana", "", false, [], []⟩
      ⟨Except.ok "id-1", none, PollOutcome.timedOut, ExecResult.ok⟩).calls =
      [] ∧
    ApiCall.update "net-1" ∉ (resourceNetworkingNetworkV2Update
      ⟨"net-1", false, true, "banana", false, "", false, false⟩
      ⟨none, none, ExecResult.ok⟩).calls := by
  have h := validation_precedes_remote_mutation
  exact ⟨(h.1 ⟨"banana", "", false, [], []⟩
      ⟨Except.ok "id-1", none, PollOutcome.timedOut, ExecResult.ok⟩
      (Or.inl ⟨by decide, by decide⟩)).2.1,
    (h.2 ⟨"net-1", false, true, "banana", false, "", false, false⟩
      ⟨none, none, ExecResult.ok⟩ (by decide)
      (Or.inl ⟨rfl, by decide, by decide⟩)).2⟩

/-- C9: once the remote create call has succeeded (and validation passed, and
the optional tags step did not fail), Create sets the resource id to the
created network id and returns the result of Read; the outcome of the
wait-for-ACTIVE poll is discarded — two runs differing only in the poll
outcome produce identical results. -/
theorem create_ignores_poll_outcome
    (inp : CreateInput) (remote remote2 : CreateRemote) (nid : String)
    (hA : ¬(inp.adminStateUp ≠ "" ∧ parseBool inp.adminStateUp = none))
    (hS : ¬(inp.shared ≠ "" ∧ parseBool inp.shared = none))
    (hC : remote.createRes = Except.ok nid)
    (hT : inp.tags = [] ∨ remote.tagsRes = none) :
    (resourceNetworkingNetworkV2Create inp remote).idSet = some nid ∧
    (resourceNetworkingNetworkV2Create inp remote).result = remote.readRes ∧
    (remote2.createRes = remote.createRes → remote2.tagsRes = remote.tagsRes →
      remote2.readRes = remote.readRes →
      resourceNetworkingNetworkV2Create inp remote2 =
        resourceNetworkingNetworkV2Create inp remote) := by
  have key : ∀ r : CreateRemote, r.createRes = Except.ok nid →
      r.tagsRes = remote.tagsRes →
      resourceNetworkingNetworkV2Create inp r =
        ⟨r.readRes,
          if inp.tags.length > 0 then
            [ApiCall.create, ApiCall.replaceTags nid]
          else [ApiCall.create], some nid⟩ := by
    intro r hrc hrt
    by_cases htl : inp.tags.length > 0
    · have hnone : r.tagsRes = none := by
        rcases hT with hT | hT
        · rw [hT] at htl; simp at htl
        · rw [hrt, hT]
      simp [resourceNetworkingNetworkV2Create, hA, hS, hrc, hnone, htl]
    · simp [resourceNetworkingNetworkV2Create, hA, hS, hrc, htl]
  have e1 := key remote hC rfl
  refine ⟨by rw [e1], by rw [e1], ?_⟩
  intro h2c h2t h2r
  have e2 := key remote2 (by rw [h2c, hC]) h2t
  rw [e1, e2, h2r]

/-- C9 witness: with a timed-out poll and with a poll that failed with a
remote error, Create produces the same outcome and sets the created id. -/
theorem create_ignores_poll_outcome_witness :
    (resourceNetworkingNetworkV2Create ⟨"true", "", false, [], []⟩
      ⟨Except.ok "id-1", none, PollOutcome.timedOut, ExecResult.ok⟩).idSet =
      some "id-1" ∧
    resourceNetworkingNetworkV2Create ⟨"true", "", false, [], []⟩
      ⟨Except.ok "id-1", none,
        PollOutcome.remoteError (ApiError.other "poll failed"),
        ExecResult.ok⟩ =
    resourceNetworkingNetworkV2Create ⟨"true", "", false, [], []⟩
      ⟨Except.ok "id-1", none, PollOutcome.timedOut, ExecResult.ok⟩ := by
  have h := create_ignores_poll_outcome ⟨"true", "", false, [], []⟩
    ⟨Except.ok "id-1", none, PollOutcome.timedOut, ExecResult.ok⟩
    ⟨Except.ok "id-1", none,
      PollOutcome.remoteError (ApiError.other "poll failed"), ExecResult.ok⟩
    "id-1" (by decide) (by decide) rfl (Or.inl rfl)
  exact ⟨h.1, h.2.2 rfl rfl rfl⟩

/-- C10: the clustering-profile Update handler performs no remote mutation —
it is the re-read: its trace is the single Get call of Read and its result
is exactly the Read result. -/
theorem clusteringProfileV1Update_only_rereads
    (id : String) (getRes : Except ApiError Profile) :
    resourceClusteringProfileV1Update id getRes =
      resourceClusteringProfileV1Read id getRes ∧
    (resourceClusteringProfileV1Update id getRes).calls = [ApiCall.get id] ∧
    (∀ c ∈ (resourceClusteringProfileV1Update id getRes).calls,
      isMutating c = false) := by
  have hcalls : (resourceClusteringProfileV1Update id getRes).calls =
      [ApiCall.get id] := by
    cases getRes with
    | error e =>
        simp only [resourceClusteringProfileV1Update,
          resourceClusteringProfileV1Read]
        split <;> rfl
    | ok p => rfl
  refine ⟨rfl, hcalls, ?_⟩
  intro c hc
  rw [hcalls] at hc
  simp only [List.mem_singleton] at hc
  subst hc
  rfl

/-- C10 witness: a concrete Update run issues exactly one non-mutating Get. -/
theorem clusteringProfileV1Update_only_rereads_witness :
    (resourceClusteringProfileV1Update "prof-1" (Except.ok ⟨"p"⟩)).calls =
      [ApiCall.get "prof-1"] ∧
    isMutating (ApiCall.get "prof-1") = false := by
  have h := clusteringProfileV1Update_only_rereads "prof-1" (Except.ok ⟨"p"⟩)
  exact ⟨h.2.1, h.2.2 (ApiCall.get "prof-1") (by rw [h.2.1]; simp)⟩
